import Mathlib

/-!
Shallow embedding of the client-side authentication session store of the
RouteOptimizationSystem repository (source: the Zustand store in
`src/store/authStore.ts`).  The store keeps four fields
(`user`, `isAuthenticated`, `isLoading`, `error`) and exposes four
transitions (`login`, `register`, `logout`, `clearError`).  Each
asynchronous transition is embedded as a pure function from the prior
state and the outcome of the external identity-provider call to the final
state; Zustand's partial `set` merge is rendered as a record update.
-/

/-- The application-level user record (`User` in `src/types`). -/
structure User where
  id : String
  email : String
  username : String
  role : String
deriving DecidableEq, Repr

/-- The identity record returned by the provider: `data.user` with its
`user_metadata` object flattened to its two consulted keys, each possibly
absent. -/
structure ProviderUser where
  id : String
  email : String
  user_metadata_username : Option String
  user_metadata_role : Option String
deriving DecidableEq, Repr

/-- Outcome of an awaited provider auth call that returns `\x7b data, error \x7d`:
either a failure (`error` non-null, or the awaited promise rejected — both
land in the `catch` block), or success with `data.user` possibly null. -/
inductive AuthResponse where
  | failure (msg : String)
  | success (user : Option ProviderUser)
deriving DecidableEq, Repr

/-- The Zustand store state: the four data fields of `AuthState`. -/
structure AuthState where
  user : Option User
  isAuthenticated : Bool
  isLoading : Bool
  error : Option String
deriving DecidableEq, Repr

/-- The initial state of the store (lines 21-24 of the source). -/
def initialState : AuthState :=
  { user := none, isAuthenticated := false, isLoading := false, error := none }

/-- JavaScript `a || b` on a possibly-absent string: an absent or empty
string is falsy and falls through to the default. -/
def jsOrString (v : Option String) (d : String) : String :=
  match v with
  | none => d
  | some s => if s = "" then d else s

/-- The fixed generic message set by `login` on any failure. -/
def loginFailureMsg : String :=
  "Email o contraseña inválidos. Por favor intente nuevamente."

/-- The message of the error thrown by `register` when the email pre-check
finds an existing account. -/
def duplicateEmailMsg : String :=
  "Ya existe una cuenta con este email. Por favor inicie sesión."

/-- The `User` built by `login` from a returned provider record:
`username` is `user_metadata.username || email`, `role` is
`user_metadata.role || 'user'`. -/
def profileOfProviderUser (u : ProviderUser) : User :=
  { id := u.id
    email := u.email
    username := jsOrString u.user_metadata_username u.email
    role := jsOrString u.user_metadata_role "user" }

/-- Transition `login(email, password)`: first `set(\x7b isLoading: true, error: null \x7d)`,
then on failure the catch block resets to the error state with the fixed
generic message; on success with a user, sets the mapped profile; on
success with a null user, no further `set` runs. -/
def login (s : AuthState) (resp : AuthResponse) : AuthState :=
  let s := { s with isLoading := true, error := none }
  match resp with
  | .failure _ =>
      { s with error := some loginFailureMsg, isLoading := false,
               isAuthenticated := false, user := none }
  | .success none => s
  | .success (some u) =>
      { s with user := some (profileOfProviderUser u),
               isAuthenticated := true, isLoading := false, error := none }

/-- Transition `register(username, email, password)`: first
`set(\x7b isLoading: true, error: null \x7d)`; if the email pre-check finds an
existing account it throws the duplicate message, caught below, and the
sign-up call is never reached (hence `signUpResp` is consulted only in the
`existingUser = false` branch); otherwise on sign-up failure the thrown
error's message is surfaced verbatim; on success with a user the profile
uses the locally supplied `username` and `role = "user"`; on success with a
null user no further `set` runs. -/
def register (s : AuthState) (username email : String)
    (existingUser : Bool) (signUpResp : AuthResponse) : AuthState :=
  let s := { s with isLoading := true, error := none }
  if existingUser then
    { s with error := some duplicateEmailMsg, isLoading := false,
             isAuthenticated := false, user := none }
  else
    match signUpResp with
    | .failure msg =>
        { s with error := some msg, isLoading := false,
                 isAuthenticated := false, user := none }
    | .success none => s
    | .success (some u) =>
        { s with user := some { id := u.id, email := u.email,
                                username := username, role := "user" },
                 isAuthenticated := true, isLoading := false, error := none }

/-- Transition `logout()`: on sign-out success `set(\x7b user: null, isAuthenticated:
false, error: null \x7d)` (note: `isLoading` is not touched); on failure only
`set(\x7b error: message \x7d)`. `signOutError` is the error of the provider's
sign-out call, `none` on success. -/
def logout (s : AuthState) (signOutError : Option String) : AuthState :=
  match signOutError with
  | none => { s with user := none, isAuthenticated := false, error := none }
  | some msg => { s with error := some msg }

/-- Transition `clearError()`: `set(\x7b error: null \x7d)`. -/
def clearError (s : AuthState) : AuthState :=
  { s with error := none }

/-- States reachable from the initial state by completed runs of the four
transitions, with arbitrary provider outcomes. -/
inductive Reachable : AuthState → Prop where
  | init : Reachable initialState
  | step_login (s : AuthState) (resp : AuthResponse) :
      Reachable s → Reachable (login s resp)
  | step_register (s : AuthState) (username email : String)
      (existingUser : Bool) (signUpResp : AuthResponse) :
      Reachable s → Reachable (register s username email existingUser signUpResp)
  | step_logout (s : AuthState) (signOutError : Option String) :
      Reachable s → Reachable (logout s signOutError)
  | step_clearError (s : AuthState) :
      Reachable s → Reachable (clearError s)

/-- Claim C2 — in every state reachable by completed runs of the four
transitions from the initial state, the `isAuthenticated` flag equals
`currentUser != null` (here: `Option.isSome` of the `user` field). -/
theorem reachable_auth_iff_user (s : AuthState) (h : Reachable s) :
    s.isAuthenticated = s.user.isSome := by
  induction h with
  | init => rfl
  | step_login s resp _ ih =>
      cases resp with
      | failure msg => rfl
      | success u =>
          cases u with
          | none => simpa [login] using ih
          | some v => rfl
  | step_register s username email existingUser signUpResp _ ih =>
      cases existingUser with
      | true => rfl
      | false =>
          cases signUpResp with
          | failure msg => rfl
          | success u =>
              cases u with
              | none => simpa [register] using ih
              | some v => rfl
  | step_logout s signOutError _ ih =>
      cases signOutError with
      | none => rfl
      | some msg => simpa [logout] using ih
  | step_clearError s _ ih => simpa [clearError] using ih

/-- Witness for C2: the invariant instantiated at a concrete reachable
state, the one reached by a successful login from the initial state. -/
theorem reachable_auth_iff_user_witness :
    (login initialState (AuthResponse.success
      (some { id := "1", email := "a@b.com",
              user_metadata_username := some "ana",
              user_metadata_role := none }))).isAuthenticated =
    (login initialState (AuthResponse.success
      (some { id := "1", email := "a@b.com",
              user_metadata_username := some "ana",
              user_metadata_role := none }))).user.isSome :=
  reachable_auth_iff_user _ (Reachable.step_login _ _ Reachable.init)

/-- Claim C3 — on every failure of the credential-verification call,
`login` ends with no user, not authenticated, not loading, and the error
set to the one fixed, non-empty generic message; the final state does not
depend on which failure occurred. -/
theorem login_failure_generic (s : AuthState) (msg : String) :
    (login s (AuthResponse.failure msg)).user = none ∧
    (login s (AuthResponse.failure msg)).isAuthenticated = false ∧
    (login s (AuthResponse.failure msg)).isLoading = false ∧
    (login s (AuthResponse.failure msg)).error = some loginFailureMsg ∧
    loginFailureMsg ≠ "" ∧
    (∀ msg' : String,
      login s (AuthResponse.failure msg) = login s (AuthResponse.failure msg')) :=
  ⟨rfl, rfl, rfl, rfl, by decide, fun _ => rfl⟩

/-- Claim C4 — when the email pre-check finds an existing account,
`register` ends in the duplicate-account error state, and the final state
is the same for every possible outcome of the account-creation call (the
right-hand side does not mention `signUpResp`): the creation capability is
never consulted. -/
theorem register_duplicate_email (s : AuthState) (username email : String)
    (signUpResp : AuthResponse) :
    register s username email true signUpResp =
      { user := none, isAuthenticated := false, isLoading := false,
        error := some duplicateEmailMsg } :=
  rfl

/-- Claim C5 — a `logout` whose session-invalidation fails leaves every
field except `error` exactly as before and sets `error` to the failure's
description. -/
theorem logout_failure_preserves_session (s : AuthState) (msg : String) :
    logout s (some msg) = { s with error := some msg } :=
  rfl

/-- Claim C6 — every `login` accepted by the provider with an identity
record whose metadata carries a (non-empty) username ends authenticated,
not loading, with no error, and with the user populated from the record:
id and email from the record, username from the metadata, role mapped
from the metadata role — and whenever the metadata omits the role, that
mapped role is "user". -/
theorem login_success_state (s : AuthState) (u : ProviderUser) (n : String)
    (hn : u.user_metadata_username = some n) (hne : n ≠ "") :
    login s (AuthResponse.success (some u)) =
      { user := some { id := u.id, email := u.email, username := n,
                       role := jsOrString u.user_metadata_role "user" },
        isAuthenticated := true, isLoading := false, error := none } ∧
    (u.user_metadata_role = none →
      jsOrString u.user_metadata_role "user" = "user") := by
  constructor
  · simp [login, profileOfProviderUser, jsOrString, hn, hne]
  · intro h
    simp [jsOrString, h]

/-- Witness for C6: the spec's scenario — login with the provider
returning id "1", email "a@b.com", metadata username "ana" and no role. -/
theorem login_success_state_witness :
    login initialState (AuthResponse.success
      (some { id := "1", email := "a@b.com",
              user_metadata_username := some "ana",
              user_metadata_role := none })) =
      { user := some { id := "1", email := "a@b.com", username := "ana", role := "user" },
        isAuthenticated := true, isLoading := false, error := none } := by
  have h := (login_success_state initialState
    { id := "1", email := "a@b.com",
      user_metadata_username := some "ana",
      user_metadata_role := none } "ana" rfl (by decide)).1
  simpa [jsOrString] using h

/-- Claim C7 — a `register` whose pre-check finds no account and whose
account creation succeeds with an identity record ends authenticated, not
loading, with no error, and with the user's username equal to the locally
supplied `username` argument and role "user". -/
theorem register_success_local_username (s : AuthState)
    (username email : String) (u : ProviderUser) :
    register s username email false (AuthResponse.success (some u)) =
      { user := some { id := u.id, email := u.email,
                       username := username, role := "user" },
        isAuthenticated := true, isLoading := false, error := none } :=
  rfl

/-- Claim C8 — `clearError` clears `error`, leaves the other three fields
unchanged, and is idempotent. -/
theorem clearError_only_error_idempotent (s : AuthState) :
    (clearError s).error = none ∧
    (clearError s).user = s.user ∧
    (clearError s).isAuthenticated = s.isAuthenticated ∧
    (clearError s).isLoading = s.isLoading ∧
    clearError (clearError s) = clearError s :=
  ⟨rfl, rfl, rfl, rfl, rfl⟩

/-- Claim C9 — a `login` whose provider call succeeds but returns a null
user terminates with `isLoading` still true and `error` cleared, with
`user` and `isAuthenticated` unchanged from before the call. -/
theorem login_null_user_leaves_loading (s : AuthState) :
    (login s (AuthResponse.success none)).isLoading = true ∧
    (login s (AuthResponse.success none)).error = none ∧
    (login s (AuthResponse.success none)).user = s.user ∧
    (login s (AuthResponse.success none)).isAuthenticated = s.isAuthenticated :=
  ⟨rfl, rfl, rfl, rfl⟩

/-- Claim C10 — on a successful login whose identity record's metadata
omits the username, the resulting user's username is the account's email
address. -/
theorem login_username_defaults_to_email (s : AuthState) (u : ProviderUser)
    (h : u.user_metadata_username = none) :
    (login s (AuthResponse.success (some u))).user =
      some { id := u.id, email := u.email, username := u.email,
             role := jsOrString u.user_metadata_role "user" } := by
  simp [login, profileOfProviderUser, jsOrString, h]

/-- Witness for C10: a concrete provider record with no metadata username
yields a user whose username is the email. -/
theorem login_username_defaults_to_email_witness :
    (login initialState (AuthResponse.success
      (some { id := "2", email := "c@d.com",
              user_metadata_username := none,
              user_metadata_role := some "admin" }))).user =
      some { id := "2", email := "c@d.com", username := "c@d.com", role := "admin" } := by
  have h := login_username_defaults_to_email initialState
    { id := "2", email := "c@d.com",
      user_metadata_username := none, user_metadata_role := some "admin" } rfl
  simpa [jsOrString] using h

/-- Counterexample for C1 — from a prior state with `isLoading = true`
(reachable, e.g., after a login that resolved with a null user), a
successful logout does not yield the exact initial state: `isLoading`
stays true. -/
theorem logout_success_not_initial_cex :
    logout { user := none, isAuthenticated := false,
             isLoading := true, error := none } none ≠ initialState := by
  decide

/-- Claim C1 (amended) — a successful logout sets `user = none`,
`isAuthenticated = false`, `error = none` and leaves `isLoading`
unchanged; in particular, from any prior state with `isLoading = false`
it ends in the exact initial state. -/
theorem logout_success_resets (s : AuthState) :
    (logout s none).user = none ∧
    (logout s none).isAuthenticated = false ∧
    (logout s none).error = none ∧
    (logout s none).isLoading = s.isLoading ∧
    (s.isLoading = false → logout s none = initialState) := by
  refine ⟨rfl, rfl, rfl, rfl, fun h => ?_⟩
  cases s
  simp_all [logout, initialState]

/-- Witness for C1 (amended): a successful logout from an authenticated,
non-loading state with a stale error yields the exact initial state. -/
theorem logout_success_resets_witness :
    logout { user := some { id := "1", email := "a@b.com",
                            username := "ana", role := "user" },
             isAuthenticated := true, isLoading := false,
             error := some "boom" } none = initialState :=
  (logout_success_resets _).2.2.2.2 rfl
